import Mathlib

/-!
Verification of the outbound-egress layer of clash-rs
(src/clash_lib/src/proxy/utils): interface discovery and selection
(mod.rs), the platform socket binder (platform/unix.rs), the socket
protection indirection and the socket factory (socket_helpers.rs).

The Rust code is shallowly embedded: pure fragments become Lean
functions, the process-global protector becomes explicit state passing,
and effectful socket calls are recorded as explicit action values.
-/

namespace Clash

/-! ## IP addresses

Models of the Rust std::net address types, with the classification
methods the source calls (is_loopback, is_link_local, is_unspecified,
is_global, is_unicast_global), following the published std definitions.
-/

/-- An IPv4 address as four octets. -/
structure Ipv4Addr where
  o0 : Nat
  o1 : Nat
  o2 : Nat
  o3 : Nat
deriving DecidableEq

/-- Model of std Ipv4Addr::is_loopback: 127.0.0.0/8. -/
def Ipv4Addr.is_loopback (a : Ipv4Addr) : Bool := a.o0 == 127

/-- Model of std Ipv4Addr::is_link_local: 169.254.0.0/16. -/
def Ipv4Addr.is_link_local (a : Ipv4Addr) : Bool := a.o0 == 169 && a.o1 == 254

/-- Model of std Ipv4Addr::is_unspecified: 0.0.0.0. -/
def Ipv4Addr.is_unspecified (a : Ipv4Addr) : Bool :=
  a.o0 == 0 && a.o1 == 0 && a.o2 == 0 && a.o3 == 0

/-- An IPv6 address as eight 16-bit segments. -/
structure Ipv6Addr where
  s0 : Nat
  s1 : Nat
  s2 : Nat
  s3 : Nat
  s4 : Nat
  s5 : Nat
  s6 : Nat
  s7 : Nat
deriving DecidableEq

/-- Model of std Ipv6Addr::is_unspecified: all segments zero. -/
def Ipv6Addr.is_unspecified (a : Ipv6Addr) : Bool :=
  a.s0 == 0 && a.s1 == 0 && a.s2 == 0 && a.s3 == 0 &&
  a.s4 == 0 && a.s5 == 0 && a.s6 == 0 && a.s7 == 0

/-- Model of std Ipv6Addr::is_loopback: ::1. -/
def Ipv6Addr.is_loopback (a : Ipv6Addr) : Bool :=
  a.s0 == 0 && a.s1 == 0 && a.s2 == 0 && a.s3 == 0 &&
  a.s4 == 0 && a.s5 == 0 && a.s6 == 0 && a.s7 == 1

/-- Model of std Ipv6Addr::is_multicast: ff00::/8. -/
def Ipv6Addr.is_multicast (a : Ipv6Addr) : Bool := a.s0 &&& 0xff00 == 0xff00

/-- Model of std Ipv6Addr::is_unicast: not multicast. -/
def Ipv6Addr.is_unicast (a : Ipv6Addr) : Bool := !a.is_multicast

/-- Model of std Ipv6Addr::is_unicast_link_local: fe80::/10. -/
def Ipv6Addr.is_unicast_link_local (a : Ipv6Addr) : Bool :=
  a.s0 &&& 0xffc0 == 0xfe80

/-- Model of std Ipv6Addr::is_unique_local: fc00::/7. -/
def Ipv6Addr.is_unique_local (a : Ipv6Addr) : Bool := a.s0 &&& 0xfe00 == 0xfc00

/-- Model of std Ipv6Addr::is_documentation: 2001:db8::/32. -/
def Ipv6Addr.is_documentation (a : Ipv6Addr) : Bool :=
  a.s0 == 0x2001 && a.s1 == 0xdb8

/-- Model of std Ipv6Addr::is_benchmarking: 2001:2::/48. -/
def Ipv6Addr.is_benchmarking (a : Ipv6Addr) : Bool :=
  a.s0 == 0x2001 && a.s1 == 0x2 && a.s2 == 0

/-- Model of std Ipv6Addr::is_unicast_global. -/
def Ipv6Addr.is_unicast_global (a : Ipv6Addr) : Bool :=
  a.is_unicast && !a.is_loopback && !a.is_unicast_link_local &&
  !a.is_unique_local && !a.is_unspecified && !a.is_documentation &&
  !a.is_benchmarking

/-- Model of std Ipv6Addr::is_global: excludes the unspecified and loopback
addresses, the IPv4-mapped block, the IPv4-IPv6 translation block, the
discard-only block, most IETF protocol assignments, 6to4, documentation,
unique-local and link-local ranges. -/
def Ipv6Addr.is_global (a : Ipv6Addr) : Bool :=
  !(a.is_unspecified
    || a.is_loopback
    || (a.s0 == 0 && a.s1 == 0 && a.s2 == 0 && a.s3 == 0 && a.s4 == 0 &&
        a.s5 == 0xffff)
    || (a.s0 == 0x64 && a.s1 == 0xff9b && a.s2 == 1)
    || (a.s0 == 0x100 && a.s1 == 0 && a.s2 == 0 && a.s3 == 0)
    || (a.s0 == 0x2001 && decide (a.s1 < 0x200)
        && !((a.s1 == 1 && a.s2 == 0 && a.s3 == 0 && a.s4 == 0 && a.s5 == 0 &&
              a.s6 == 0 && (a.s7 == 1 || a.s7 == 2))
             || a.s1 == 3
             || (a.s1 == 4 && a.s2 == 0x112)
             || (decide (0x20 ≤ a.s1) && decide (a.s1 ≤ 0x3f))))
    || a.s0 == 0x2002
    || a.is_documentation
    || a.is_unique_local
    || a.is_unicast_link_local)

/-! ## Substring containment (model of Rust str::contains) -/

/-- Whether the first character list is an initial segment of the second. -/
def seqStartsWith : List Char → List Char → Bool
  | [], _ => true
  | _ :: _, [] => false
  | p :: ps, c :: cs => p == c && seqStartsWith ps cs

/-- Whether the first character list occurs contiguously in the second. -/
def seqContainsSub (pat : List Char) : List Char → Bool
  | [] => seqStartsWith pat []
  | c :: cs => seqStartsWith pat (c :: cs) || seqContainsSub pat cs

/-- Model of Rust str::contains with a string pattern. -/
def strContainsSub (s pat : String) : Bool := seqContainsSub pat.toList s.toList

/-! ## Interface discovery and selection (mod.rs) -/

/-- Model of network_interface::Addr: one address assigned to an interface
(the source reads only the ip field). -/
inductive Addr where
  | V4 (ip : Ipv4Addr)
  | V6 (ip : Ipv6Addr)
deriving DecidableEq

/-- Model of network_interface::NetworkInterface as read by the source. -/
structure NetworkInterface where
  name : String
  addr : List Addr
  index : Nat
deriving DecidableEq

/-- Model of OutboundInterface from mod.rs. -/
structure OutboundInterface where
  name : String
  addr_v4 : Option Ipv4Addr
  addr_v6 : Option Ipv6Addr
  index : Nat
deriving DecidableEq

/-- The loop of get_outbound_ip_from_interface: scans the address list,
recording at most one usable IPv4 and one usable IPv6 address; the break
check at the top of each iteration stops the scan once both are filled. -/
def scanAddrs : List Addr → Option Ipv4Addr → Option Ipv6Addr →
    Option Ipv4Addr × Option Ipv6Addr
  | [], v4, v6 => (v4, v6)
  | a :: rest, v4, v6 =>
    if v4.isSome && v6.isSome then (v4, v6)
    else
      match a with
      | .V4 ip =>
        if !ip.is_loopback && !ip.is_link_local && !ip.is_unspecified then
          scanAddrs rest (some ip) v6
        else
          scanAddrs rest v4 v6
      | .V6 ip =>
        if ip.is_global && !ip.is_unspecified then
          scanAddrs rest v4 (some ip)
        else
          scanAddrs rest v4 v6

/-- Model of get_outbound_ip_from_interface from mod.rs. -/
def get_outbound_ip_from_interface (iface : NetworkInterface) :
    Option Ipv4Addr × Option Ipv6Addr :=
  scanAddrs iface.addr none none

/-- Model of the static INTERFACE_PRIORITY table from mod.rs. -/
def INTERFACE_PRIORITY : List String := ["eth", "en", "wlan", "pdp_ip"]

/-- Model of usize::MAX on a 64-bit target, as the literal 2 ^ 64 - 1. -/
def USIZE_MAX : Nat := 18446744073709551615

/-- Model of INTERFACE_PRIORITY.iter().position(|x| name.contains(x))
.unwrap_or(usize::MAX) from the sort comparator in mod.rs. -/
def priorityPos (name : String) : Nat :=
  match INTERFACE_PRIORITY.findIdx? (fun x => strContainsSub name x) with
  | some i => i
  | none => USIZE_MAX

/-- Model of the sort_by comparator in get_outbound_interface: prefer an
interface with a usable IPv6 address, then (both having one) prefer a
globally-routable unicast IPv6 address, then fall back to the position of
the first INTERFACE_PRIORITY entry contained in the name. -/
def ifaceCmp (left right : OutboundInterface) : Ordering :=
  match left.addr_v6, right.addr_v6 with
  | some _, none => .lt
  | none, some _ => .gt
  | some l, some r =>
    if l.is_unicast_global && !r.is_unicast_global then .lt
    else if !l.is_unicast_global && r.is_unicast_global then .gt
    else compare (priorityPos left.name) (priorityPos right.name)
  | none, none => compare (priorityPos left.name) (priorityPos right.name)

/-- The order induced by the comparator, as used by the ascending sort. -/
def ifaceLe (a b : OutboundInterface) : Prop := ifaceCmp a b ≠ Ordering.gt

instance : DecidableRel ifaceLe := fun a b =>
  inferInstanceAs (Decidable (ifaceCmp a b ≠ Ordering.gt))

/-- The filter_map closure of get_outbound_interface: extract the usable
addresses and keep the interface unless its name contains "tun" or it has
neither usable address. -/
def outboundCandidate (iface : NetworkInterface) : Option OutboundInterface :=
  if !(strContainsSub iface.name "tun") &&
      ((get_outbound_ip_from_interface iface).1.isSome ||
       (get_outbound_ip_from_interface iface).2.isSome) then
    some ⟨iface.name, (get_outbound_ip_from_interface iface).1,
          (get_outbound_ip_from_interface iface).2, iface.index⟩
  else
    none

/-- Model of get_outbound_interface from mod.rs, parameterised by the
interface list the OS enumeration returned (a failed enumeration yields
none upstream of this function). Vec::sort_by is a stable ascending sort,
modelled by the stable insertion sort; the result is the first element of
the sorted survivors. -/
def get_outbound_interface (enumerated : List NetworkInterface) :
    Option OutboundInterface :=
  (List.insertionSort ifaceLe (enumerated.filterMap outboundCandidate)).head?

/-! ## Interface identity (mod.rs) -/

/-- Model of std IpAddr. -/
inductive IpAddr where
  | V4 (a : Ipv4Addr)
  | V6 (a : Ipv6Addr)
deriving DecidableEq

/-- Model of the Interface enum from mod.rs. -/
inductive Interface where
  | IpAddr (v4 : Option Ipv4Addr) (v6 : Option Ipv6Addr)
  | Name (name : String)
deriving DecidableEq

/-- Model of the From impl for IpAddr on Interface. -/
def interfaceFromIpAddr : IpAddr → Interface
  | .V4 addr => .IpAddr (some addr) none
  | .V6 addr => .IpAddr none (some addr)

/-! ## Platform socket binder (platform/unix.rs) -/

/-- The two socket2 domains the socket factory constructs (other domains
reach the unreachable arm of must_bind_socket_on_interface and are never
produced by this core). -/
inductive Domain where
  | IPV4
  | IPV6
deriving DecidableEq

/-- Model of the io error kinds produced by the binder. -/
inductive IoErrorKind where
  | AddrNotAvailable
deriving DecidableEq

/-- The single action performed by must_bind_socket_on_interface; the
error constructor means the function returned before any bind call. -/
inductive BindOutcome where
  | error (k : IoErrorKind)
  | bindV4 (a : Ipv4Addr) (port : Nat)
  | bindV6 (a : Ipv6Addr) (port : Nat) (flowinfo : Nat) (scope_id : Nat)
  | bindDevice (name : String)
deriving DecidableEq

/-- Model of must_bind_socket_on_interface from platform/unix.rs on a
Linux-family target (bind_device available): an address identity binds the
component of the requested family at port 0, erring with AddrNotAvailable
when that component is absent; a name identity binds the device. -/
def must_bind_socket_on_interface (iface : Interface) (family : Domain) :
    BindOutcome :=
  match iface with
  | .IpAddr v4 v6 =>
    match family with
    | .IPV4 =>
      match v4 with
      | none => .error .AddrNotAvailable
      | some addr => .bindV4 addr 0
    | .IPV6 =>
      match v6 with
      | none => .error .AddrNotAvailable
      | some addr => .bindV6 addr 0 0 0
  | .Name name => .bindDevice name

/-! ## Socket protection indirection (socket_helpers.rs) -/

/-- A registered SocketProtector trait object, identified abstractly;
invocations of its protect method are recorded as (protector, fd) pairs. -/
structure SocketProtector where
  id : Nat
deriving DecidableEq

/-- Model of set_socket_protector: store replaces the current handler. -/
def set_socket_protector (_old : Option SocketProtector)
    (p : SocketProtector) : Option SocketProtector := some p

/-- Model of protect_socket: with no handler registered it returns the
anyhow error; with one registered it invokes that handler once with the
descriptor and succeeds. The list records the handler invocations. -/
def protect_socket (st : Option SocketProtector) (fd : Int) :
    Except String Unit × List (SocketProtector × Int) :=
  match st with
  | none => (.error "Socket protector not set but invoked!", [])
  | some p => (.ok (), [(p, fd)])

/-! ## Socket factory (socket_helpers.rs) -/

/-- Outcome of a Rust expression that may panic. -/
inductive PanicOr (α : Type) where
  | ok (a : α)
  | panicked (msg : String)
deriving DecidableEq

/-- Model of Result::expect: unwrap the value or panic with the message. -/
def resultExpect (msg : String) : Except ε α → PanicOr α
  | .ok a => .ok a
  | .error _ => .panicked msg

/-- The Android-only step of new_tcp_stream:
protect_socket(fd).expect("empty socket protector"). -/
def new_tcp_stream_android_protect (st : Option SocketProtector) (fd : Int) :
    PanicOr Unit :=
  resultExpect "empty socket protector" (protect_socket st fd).1

/-- The Android-only step of new_udp_socket:
protect_socket(fd).expect("empty socket protector"). -/
def new_udp_socket_android_protect (st : Option SocketProtector) (fd : Int) :
    PanicOr Unit :=
  resultExpect "empty socket protector" (protect_socket st fd).1

/-- The TCP socket options the factory touches; times in seconds. -/
structure TcpOpts where
  keepalive : Bool
  keepalive_time : Option Nat
  keepalive_interval : Option Nat
  keepalive_retries : Option Nat
  nodelay : Bool
  nonblocking : Bool
deriving DecidableEq

/-- The OS-default options of a freshly created stream socket: keepalive
disabled with no per-socket timing, Nagle buffering on, blocking mode. -/
def freshTcpOpts : TcpOpts := ⟨false, none, none, none, false, false⟩

/-- The option configuration new_tcp_stream applies to the raw socket
before connecting: set_keepalive(true), set_nodelay(true),
set_nonblocking(true). -/
def new_tcp_stream_preconnect (s : TcpOpts) : TcpOpts :=
  { s with keepalive := true, nodelay := true, nonblocking := true }

/-- Model of apply_tcp_options: set_tcp_keepalive with time 10s and
interval 1s, plus retries 3 on non-Windows targets (Windows lacks the
retries parameter); socket2 set_tcp_keepalive also enables keepalive. -/
def apply_tcp_options (windows : Bool) (s : TcpOpts) : TcpOpts :=
  if windows then
    { s with keepalive := true, keepalive_time := some 10,
             keepalive_interval := some 1 }
  else
    { s with keepalive := true, keepalive_time := some 10,
             keepalive_interval := some 1, keepalive_retries := some 3 }

/-- Model of std SocketAddr. -/
inductive SocketAddr where
  | V4 (ip : Ipv4Addr) (port : Nat)
  | V6 (ip : Ipv6Addr) (port : Nat)
deriving DecidableEq

/-- Model of SocketAddr::is_ipv4. -/
def SocketAddr.is_ipv4 : SocketAddr → Bool
  | .V4 .. => true
  | .V6 .. => false

/-- The bind decision taken by new_udp_socket (non-Android path). -/
inductive UdpBindAction where
  | viaIface (result : BindOutcome)
  | direct (addr : SocketAddr)
  | unbound
deriving DecidableEq

/-- Model of new_udp_socket up to its bind step: the socket family is
chosen from src (IPv4 when absent), then the (src, iface) match decides
the bind: with both given the interface bind is used and the address bind
skipped; with only src, a direct address bind; with only iface, the
interface bind; with neither, no bind. -/
def new_udp_socket_bind (src : Option SocketAddr) (iface : Option Interface) :
    UdpBindAction :=
  let family : Domain :=
    match src with
    | some s => if s.is_ipv4 then .IPV4 else .IPV6
    | none => .IPV4
  match src, iface with
  | some _, some i => .viaIface (must_bind_socket_on_interface i family)
  | some s, none => .direct s
  | none, some i => .viaIface (must_bind_socket_on_interface i family)
  | none, none => .unbound

/-! ## Helper lemmas for the address scan -/

/-- The overwrite record of usable IPv4 addresses, written from the claim:
each later usable IPv4 address in list order overwrites the earlier one. -/
def lastUsableV4 (addrs : List Addr) (acc : Option Ipv4Addr) : Option Ipv4Addr :=
  addrs.foldl (fun v4 a =>
    match a with
    | .V4 ip =>
      if !ip.is_loopback && !ip.is_link_local && !ip.is_unspecified then some ip
      else v4
    | .V6 _ => v4) acc

theorem scanAddrs_no_usable_v6 : ∀ (l : List Addr) (v4 : Option Ipv4Addr),
    (∀ ip, Addr.V6 ip ∈ l → (ip.is_global && !ip.is_unspecified) = false) →
    scanAddrs l v4 none = (lastUsableV4 l v4, none) := by
  intro l
  induction l with
  | nil => intro v4 _; rfl
  | cons a rest ih =>
    intro v4 h
    cases a with
    | V4 ip =>
      by_cases hu : (!ip.is_loopback && !ip.is_link_local &&
          !ip.is_unspecified) = true
      · simp only [scanAddrs, Option.isSome_none, Bool.and_false,
          Bool.false_eq_true, if_false, hu, if_true, lastUsableV4, List.foldl]
        exact ih (some ip) (fun ip6 h6 => h ip6 (List.mem_cons_of_mem _ h6))
      · simp only [scanAddrs, Option.isSome_none, Bool.and_false,
          Bool.false_eq_true, if_false, hu, lastUsableV4, List.foldl]
        exact ih v4 (fun ip6 h6 => h ip6 (List.mem_cons_of_mem _ h6))
    | V6 ip =>
      have h6 : (ip.is_global && !ip.is_unspecified) = false :=
        h ip (List.mem_cons_self _ _)
      simp only [scanAddrs, Option.isSome_none, Bool.and_false,
        Bool.false_eq_true, if_false, h6, lastUsableV4, List.foldl]
      exact ih v4 (fun ip6 hm => h ip6 (List.mem_cons_of_mem _ hm))

/-! ## Analysis of the sort comparator -/

/-- The primary sort key of the comparator: 0 when a usable IPv6 address
was recorded, 1 otherwise. -/
def rank1 (o : OutboundInterface) : Nat :=
  match o.addr_v6 with
  | some _ => 0
  | none => 1

/-- The secondary sort key: 0 when the recorded IPv6 address is
globally-routable unicast, 1 otherwise (also for interfaces without an
IPv6 address, whose comparison never reaches this key). -/
def rank2 (o : OutboundInterface) : Nat :=
  match o.addr_v6 with
  | some a => if a.is_unicast_global then 0 else 1
  | none => 1

theorem natCompare_ne_gt {m n : Nat} : compare m n ≠ Ordering.gt ↔ m ≤ n := by
  rw [Ne, Nat.compare_eq_gt]
  omega

/-- The comparator order is the lexicographic order on the two address
ranks followed by the name-priority position. -/
theorem ifaceLe_iff (a b : OutboundInterface) :
    ifaceLe a b ↔
      (rank1 a < rank1 b ∨ (rank1 a = rank1 b ∧
        (rank2 a < rank2 b ∨ (rank2 a = rank2 b ∧
          priorityPos a.name ≤ priorityPos b.name)))) := by
  obtain ⟨na, a4, a6, ia⟩ := a
  obtain ⟨nb, b4, b6, ib⟩ := b
  cases a6 with
  | none =>
    cases b6 with
    | none =>
      simp [ifaceLe, ifaceCmp, rank1, rank2, natCompare_ne_gt]
    | some y =>
      simp [ifaceLe, ifaceCmp, rank1, rank2]
  | some x =>
    cases b6 with
    | none =>
      simp [ifaceLe, ifaceCmp, rank1, rank2]
    | some y =>
      by_cases hx : x.is_unicast_global <;> by_cases hy : y.is_unicast_global <;>
        simp [ifaceLe, ifaceCmp, rank1, rank2, hx, hy, natCompare_ne_gt]

theorem ifaceLe_refl (a : OutboundInterface) : ifaceLe a a := by
  rw [ifaceLe_iff]
  omega

instance : IsTotal OutboundInterface ifaceLe :=
  ⟨fun a b => by rw [ifaceLe_iff, ifaceLe_iff]; omega⟩

instance : IsTrans OutboundInterface ifaceLe :=
  ⟨fun a b c hab hbc => by
    rw [ifaceLe_iff] at hab hbc ⊢
    omega⟩

/-- With both address ranks tied, the comparator is exactly the comparison
of the name-priority positions. -/
theorem ifaceCmp_of_tied (a b : OutboundInterface) (h1 : rank1 a = rank1 b)
    (h2 : rank2 a = rank2 b) :
    ifaceCmp a b = compare (priorityPos a.name) (priorityPos b.name) := by
  obtain ⟨na, a4, a6, ia⟩ := a
  obtain ⟨nb, b4, b6, ib⟩ := b
  cases a6 with
  | none =>
    cases b6 with
    | none => rfl
    | some y => simp [rank1] at h1
  | some x =>
    cases b6 with
    | none => simp [rank1] at h1
    | some y =>
      by_cases hx : x.is_unicast_global <;> by_cases hy : y.is_unicast_global <;>
        simp_all [ifaceCmp, rank2]

/-- The selected interface is one of the surviving candidates and is a
minimum of the comparator order among them. -/
theorem selected_head_spec (ifaces : List NetworkInterface)
    (r : OutboundInterface) (hsel : get_outbound_interface ifaces = some r) :
    r ∈ ifaces.filterMap outboundCandidate ∧
    ∀ o ∈ ifaces.filterMap outboundCandidate, ifaceLe r o := by
  unfold get_outbound_interface at hsel
  cases hS : List.insertionSort ifaceLe (ifaces.filterMap outboundCandidate) with
  | nil => rw [hS] at hsel; simp at hsel
  | cons x t =>
    rw [hS] at hsel
    simp only [List.head?] at hsel
    obtain rfl : x = r := by injection hsel
    constructor
    · have hx : x ∈ List.insertionSort ifaceLe
          (ifaces.filterMap outboundCandidate) := by
        rw [hS]; exact List.mem_cons_self _ _
      exact (List.mem_insertionSort (r := ifaceLe)).mp hx
    · intro o ho
      have hoS : o ∈ List.insertionSort ifaceLe
          (ifaces.filterMap outboundCandidate) :=
        (List.mem_insertionSort (r := ifaceLe)).mpr ho
      rw [hS] at hoS
      rcases List.mem_cons.mp hoS with h | h
      · rw [h]; exact ifaceLe_refl x
      · have hsorted := List.sorted_insertionSort ifaceLe
          (ifaces.filterMap outboundCandidate)
        rw [hS] at hsorted
        exact List.rel_of_sorted_cons hsorted o h

/-- A recorded IPv4 address either was already in the accumulator or is a
usable IPv4 address from the scanned list. -/
theorem scanAddrs_v4_src : ∀ (l : List Addr) (v4 : Option Ipv4Addr)
    (v6 : Option Ipv6Addr) (a : Ipv4Addr),
    (scanAddrs l v4 v6).1 = some a →
    v4 = some a ∨ (Addr.V4 a ∈ l ∧
      (!a.is_loopback && !a.is_link_local && !a.is_unspecified) = true) := by
  intro l
  induction l with
  | nil => intro v4 v6 a h; exact .inl h
  | cons x rest ih =>
    intro v4 v6 a h
    cases x with
    | V4 ip =>
      rw [scanAddrs] at h
      by_cases hb : (v4.isSome && v6.isSome) = true
      · rw [if_pos hb] at h
        exact .inl h
      · rw [if_neg hb] at h
        by_cases hu : (!ip.is_loopback && !ip.is_link_local &&
            !ip.is_unspecified) = true
        · rw [if_pos hu] at h
          rcases ih (some ip) v6 a h with h1 | h2
          · injection h1 with h1
            rw [← h1]
            exact .inr ⟨List.mem_cons_self _ _, hu⟩
          · exact .inr ⟨List.mem_cons_of_mem _ h2.1, h2.2⟩
        · rw [if_neg hu] at h
          rcases ih v4 v6 a h with h1 | h2
          · exact .inl h1
          · exact .inr ⟨List.mem_cons_of_mem _ h2.1, h2.2⟩
    | V6 ip =>
      rw [scanAddrs] at h
      by_cases hb : (v4.isSome && v6.isSome) = true
      · rw [if_pos hb] at h
        exact .inl h
      · rw [if_neg hb] at h
        by_cases hu : (ip.is_global && !ip.is_unspecified) = true
        · rw [if_pos hu] at h
          rcases ih v4 (some ip) a h with h1 | h2
          · exact .inl h1
          · exact .inr ⟨List.mem_cons_of_mem _ h2.1, h2.2⟩
        · rw [if_neg hu] at h
          rcases ih v4 v6 a h with h1 | h2
          · exact .inl h1
          · exact .inr ⟨List.mem_cons_of_mem _ h2.1, h2.2⟩

/-- A recorded IPv6 address either was already in the accumulator or is a
usable IPv6 address from the scanned list. -/
theorem scanAddrs_v6_src : ∀ (l : List Addr) (v4 : Option Ipv4Addr)
    (v6 : Option Ipv6Addr) (a : Ipv6Addr),
    (scanAddrs l v4 v6).2 = some a →
    v6 = some a ∨ (Addr.V6 a ∈ l ∧
      (a.is_global && !a.is_unspecified) = true) := by
  intro l
  induction l with
  | nil => intro v4 v6 a h; exact .inl h
  | cons x rest ih =>
    intro v4 v6 a h
    cases x with
    | V4 ip =>
      rw [scanAddrs] at h
      by_cases hb : (v4.isSome && v6.isSome) = true
      · rw [if_pos hb] at h
        exact .inl h
      · rw [if_neg hb] at h
        by_cases hu : (!ip.is_loopback && !ip.is_link_local &&
            !ip.is_unspecified) = true
        · rw [if_pos hu] at h
          rcases ih (some ip) v6 a h with h1 | h2
          · exact .inl h1
          · exact .inr ⟨List.mem_cons_of_mem _ h2.1, h2.2⟩
        · rw [if_neg hu] at h
          rcases ih v4 v6 a h with h1 | h2
          · exact .inl h1
          · exact .inr ⟨List.mem_cons_of_mem _ h2.1, h2.2⟩
    | V6 ip =>
      rw [scanAddrs] at h
      by_cases hb : (v4.isSome && v6.isSome) = true
      · rw [if_pos hb] at h
        exact .inl h
      · rw [if_neg hb] at h
        by_cases hu : (ip.is_global && !ip.is_unspecified) = true
        · rw [if_pos hu] at h
          rcases ih v4 (some ip) a h with h1 | h2
          · injection h1 with h1
            rw [← h1]
            exact .inr ⟨List.mem_cons_self _ _, hu⟩
          · exact .inr ⟨List.mem_cons_of_mem _ h2.1, h2.2⟩
        · rw [if_neg hu] at h
          rcases ih v4 v6 a h with h1 | h2
          · exact .inl h1
          · exact .inr ⟨List.mem_cons_of_mem _ h2.1, h2.2⟩

/-- What a surviving candidate guarantees: it keeps the interface name,
that name does not contain "tun", at least one usable address was
recorded, and every recorded address is a usable address of the original
interface. -/
theorem outboundCandidate_spec (iface : NetworkInterface)
    (o : OutboundInterface) (h : outboundCandidate iface = some o) :
    o.name = iface.name ∧
    strContainsSub iface.name "tun" = false ∧
    (o.addr_v4.isSome || o.addr_v6.isSome) = true ∧
    (∀ a, o.addr_v4 = some a → Addr.V4 a ∈ iface.addr ∧
      (!a.is_loopback && !a.is_link_local && !a.is_unspecified) = true) ∧
    (∀ a, o.addr_v6 = some a → Addr.V6 a ∈ iface.addr ∧
      (a.is_global && !a.is_unspecified) = true) := by
  unfold outboundCandidate at h
  split at h
  case isFalse => exact absurd h (by simp)
  case isTrue hc =>
    rw [Bool.and_eq_true] at hc
    obtain ⟨hct, hcs⟩ := hc
    rw [Bool.not_eq_true'] at hct
    injection h with h
    subst h
    refine ⟨rfl, hct, hcs, ?_, ?_⟩
    · intro a ha
      rcases scanAddrs_v4_src iface.addr none none a ha with h1 | h2
      · exact absurd h1 (by simp)
      · exact h2
    · intro a ha
      rcases scanAddrs_v6_src iface.addr none none a ha with h1 | h2
      · exact absurd h1 (by simp)
      · exact h2

/-! ## Claim theorems -/

/-- C1 counterexample: on the Android path with no protector registered,
the protect step of both factories panics via Result::expect with the
message "empty socket protector" at descriptor 3, instead of returning an
error value to the caller. -/
theorem c1_counterexample :
    new_tcp_stream_android_protect none 3 =
      .panicked "empty socket protector" ∧
    new_udp_socket_android_protect none 3 =
      .panicked "empty socket protector" := ⟨rfl, rfl⟩

/-- C1 amended: protect_socket itself fails recoverably when no handler is
registered, but new_tcp_stream and new_udp_socket unwrap that result with
expect, so for every descriptor the Android path panics when the handler
is missing and completes without panic when one is registered. -/
theorem c1_android_protect_panics : ∀ fd : Int,
    (protect_socket none fd).1 =
      .error "Socket protector not set but invoked!" ∧
    new_tcp_stream_android_protect none fd =
      .panicked "empty socket protector" ∧
    new_udp_socket_android_protect none fd =
      .panicked "empty socket protector" ∧
    ∀ p, new_tcp_stream_android_protect (some p) fd = .ok () ∧
         new_udp_socket_android_protect (some p) fd = .ok () :=
  fun _ => ⟨rfl, rfl, rfl, fun _ => ⟨rfl, rfl⟩⟩

/-- C2 counterexample: the socket configured by new_tcp_stream before
connecting has keepalive enabled but no fixed keepalive idle time (so no
idle time of 10 seconds), refuting the claimed fixed timing. -/
theorem c2_counterexample :
    (new_tcp_stream_preconnect freshTcpOpts).keepalive = true ∧
    (new_tcp_stream_preconnect freshTcpOpts).keepalive_time = none :=
  ⟨rfl, rfl⟩

/-- C2 amended: before connecting, new_tcp_stream enables keepalive (with
OS-default timing), enables no-delay and sets non-blocking mode; the fixed
keepalive timing (idle 10s, interval 1s, probe count 3 where supported,
omitted on Windows) is applied only by the separate apply_tcp_options
function, which new_tcp_stream does not invoke. -/
theorem c2_tcp_options :
    new_tcp_stream_preconnect freshTcpOpts =
      { keepalive := true, keepalive_time := none, keepalive_interval := none,
        keepalive_retries := none, nodelay := true, nonblocking := true } ∧
    (∀ s, apply_tcp_options false s =
      { s with keepalive := true, keepalive_time := some 10,
               keepalive_interval := some 1, keepalive_retries := some 3 }) ∧
    (∀ s, apply_tcp_options true s =
      { s with keepalive := true, keepalive_time := some 10,
               keepalive_interval := some 1 }) :=
  ⟨rfl, fun _ => rfl, fun _ => rfl⟩

/-- C3: whenever the surviving candidates include one with a usable IPv6
address and one without, the selected interface has a usable IPv6 address
(and any recorded IPv6 address is a usable, global one from the original
interface list). -/
theorem c3_v6_capable_selected (ifaces : List NetworkInterface)
    (r : OutboundInterface)
    (h6 : ∃ o ∈ ifaces.filterMap outboundCandidate, o.addr_v6.isSome = true)
    (hno : ∃ o ∈ ifaces.filterMap outboundCandidate, o.addr_v6 = none)
    (hsel : get_outbound_interface ifaces = some r) :
    r.addr_v6.isSome = true ∧
    ∀ a, r.addr_v6 = some a → (a.is_global && !a.is_unspecified) = true := by
  obtain ⟨hmem, hmin⟩ := selected_head_spec ifaces r hsel
  constructor
  · obtain ⟨o, ho, ho6⟩ := h6
    have hle := hmin o ho
    rw [ifaceLe_iff] at hle
    cases hr : r.addr_v6 with
    | some a => rfl
    | none =>
      exfalso
      have hr1 : rank1 r = 1 := by simp [rank1, hr]
      have ho1 : rank1 o = 0 := by
        cases hoa : o.addr_v6 with
        | none => rw [hoa] at ho6; simp at ho6
        | some _ => simp [rank1, hoa]
      omega
  · intro a ha
    obtain ⟨iface, _, hcand⟩ := List.mem_filterMap.mp hmem
    exact ((outboundCandidate_spec iface r hcand).2.2.2.2 a ha).2

/-- C3 witness: with one IPv6-capable and one IPv4-only interface, the
selection picks the IPv6-capable one, which indeed records a usable IPv6
address. -/
theorem c3_v6_capable_selected_witness :
    (OutboundInterface.mk "wlan0" none
        (some ⟨0x2400, 0, 0, 0, 0, 0, 0, 1⟩) 2).addr_v6.isSome = true ∧
    ∀ a, (OutboundInterface.mk "wlan0" none
        (some ⟨0x2400, 0, 0, 0, 0, 0, 0, 1⟩) 2).addr_v6 = some a →
      (a.is_global && !a.is_unspecified) = true :=
  c3_v6_capable_selected
    [⟨"eth0", [.V4 ⟨192, 168, 1, 3⟩], 1⟩,
     ⟨"wlan0", [.V6 ⟨0x2400, 0, 0, 0, 0, 0, 0, 1⟩], 2⟩]
    _ (by decide) (by decide) (by decide)

/-- C4: with both address ranks tied, the comparator ranks interfaces by
the position of the first priority entry their name contains, an earlier
position ranking strictly above a later one and a name matching no entry
getting the sentinel position usize::MAX (and so ranking last); in the
two-interface scenario of the claim, selection returns eth0. -/
theorem c4_priority_tiebreak :
    (∀ a b : OutboundInterface, rank1 a = rank1 b → rank2 a = rank2 b →
      ifaceCmp a b = compare (priorityPos a.name) (priorityPos b.name)) ∧
    (∀ a b : OutboundInterface, rank1 a = rank1 b → rank2 a = rank2 b →
      priorityPos a.name < priorityPos b.name → ifaceCmp a b = .lt) ∧
    (∀ name, (∀ entry ∈ INTERFACE_PRIORITY, strContainsSub name entry = false) →
      priorityPos name = USIZE_MAX) ∧
    (∀ name, priorityPos name ≤ USIZE_MAX) ∧
    get_outbound_interface
        [⟨"wlan0", [.V4 ⟨192, 168, 1, 2⟩], 1⟩,
         ⟨"eth0", [.V4 ⟨192, 168, 1, 3⟩], 2⟩] =
      some ⟨"eth0", some ⟨192, 168, 1, 3⟩, none, 2⟩ := by
  refine ⟨ifaceCmp_of_tied, ?_, ?_, ?_, by decide⟩
  · intro a b h1 h2 hlt
    rw [ifaceCmp_of_tied a b h1 h2]
    exact Nat.compare_eq_lt.mpr hlt
  · intro name h
    have h1 := h "eth" (by simp [INTERFACE_PRIORITY])
    have h2 := h "en" (by simp [INTERFACE_PRIORITY])
    have h3 := h "wlan" (by simp [INTERFACE_PRIORITY])
    have h4 := h "pdp_ip" (by simp [INTERFACE_PRIORITY])
    simp [priorityPos, INTERFACE_PRIORITY, List.findIdx?, h1, h2, h3, h4]
  · intro name
    by_cases h1 : strContainsSub name "eth" <;>
      by_cases h2 : strContainsSub name "en" <;>
      by_cases h3 : strContainsSub name "wlan" <;>
      by_cases h4 : strContainsSub name "pdp_ip" <;>
      simp [priorityPos, INTERFACE_PRIORITY, List.findIdx?, h1, h2, h3, h4,
        USIZE_MAX]

/-- C4 witness: the tied eth0/wlan0 pair ranks eth0 strictly above wlan0,
and a name containing no priority entry gets the sentinel position. -/
theorem c4_priority_tiebreak_witness :
    ifaceCmp ⟨"eth0", some ⟨192, 168, 1, 3⟩, none, 2⟩
        ⟨"wlan0", some ⟨192, 168, 1, 2⟩, none, 1⟩ = .lt ∧
    priorityPos "foo0" = USIZE_MAX :=
  ⟨c4_priority_tiebreak.2.1 _ _ (by decide) (by decide) (by decide),
   c4_priority_tiebreak.2.2.1 "foo0" (by decide)⟩

/-- C5: a selected interface never has a name containing "tun", and always
comes from an enumerated interface owning a usable IPv4 or a usable IPv6
address. -/
theorem c5_no_tun_no_unusable (ifaces : List NetworkInterface)
    (r : OutboundInterface) (hsel : get_outbound_interface ifaces = some r) :
    strContainsSub r.name "tun" = false ∧
    ∃ iface ∈ ifaces, r.name = iface.name ∧
      ((∃ a, Addr.V4 a ∈ iface.addr ∧
        (!a.is_loopback && !a.is_link_local && !a.is_unspecified) = true) ∨
       (∃ a, Addr.V6 a ∈ iface.addr ∧
        (a.is_global && !a.is_unspecified) = true)) := by
  obtain ⟨hmem, _⟩ := selected_head_spec ifaces r hsel
  obtain ⟨iface, hif, hcand⟩ := List.mem_filterMap.mp hmem
  obtain ⟨hname, htun, hsome, hv4, hv6⟩ := outboundCandidate_spec iface r hcand
  refine ⟨by rw [hname]; exact htun, iface, hif, hname, ?_⟩
  rcases Bool.or_eq_true_iff.mp hsome with h | h
  · obtain ⟨a, ha⟩ := Option.isSome_iff_exists.mp h
    exact .inl ⟨a, hv4 a ha⟩
  · obtain ⟨a, ha⟩ := Option.isSome_iff_exists.mp h
    exact .inr ⟨a, hv6 a ha⟩

/-- C5 witness: with a tun interface, a loopback-only interface and a
normal one, the selection result satisfies the no-tun and usable-address
guarantees. -/
theorem c5_no_tun_no_unusable_witness :
    strContainsSub (OutboundInterface.mk "eth0"
        (some ⟨192, 168, 1, 3⟩) none 3).name "tun" = false ∧
    ∃ iface ∈ ([⟨"tun0", [.V4 ⟨10, 0, 0, 1⟩], 1⟩,
        ⟨"lo", [.V4 ⟨127, 0, 0, 1⟩], 2⟩,
        ⟨"eth0", [.V4 ⟨192, 168, 1, 3⟩], 3⟩] : List NetworkInterface),
      (OutboundInterface.mk "eth0" (some ⟨192, 168, 1, 3⟩) none 3).name =
        iface.name ∧
      ((∃ a, Addr.V4 a ∈ iface.addr ∧
        (!a.is_loopback && !a.is_link_local && !a.is_unspecified) = true) ∨
       (∃ a, Addr.V6 a ∈ iface.addr ∧
        (a.is_global && !a.is_unspecified) = true)) :=
  c5_no_tun_no_unusable _ _ (by decide)

/-- C6: must_bind_socket_on_interface with an address identity lacking the
component of the requested family returns AddrNotAvailable and performs no
bind; with the component present it binds that address at port 0. -/
theorem c6_by_address_family_bind :
    (∀ v6, must_bind_socket_on_interface (.IpAddr none v6) .IPV4 =
      .error .AddrNotAvailable) ∧
    (∀ a v6, must_bind_socket_on_interface (.IpAddr (some a) v6) .IPV4 =
      .bindV4 a 0) ∧
    (∀ v4, must_bind_socket_on_interface (.IpAddr v4 none) .IPV6 =
      .error .AddrNotAvailable) ∧
    (∀ v4 a, must_bind_socket_on_interface (.IpAddr v4 (some a)) .IPV6 =
      .bindV6 a 0 0 0) :=
  ⟨fun _ => rfl, fun _ _ => rfl, fun _ => rfl, fun _ _ => rfl⟩

/-- C7: protect_socket with no handler registered returns the protector
error and invokes nothing; after set_socket_protector registers a handler,
it invokes exactly that handler exactly once with the given descriptor and
succeeds. -/
theorem c7_protect_socket :
    (∀ fd, protect_socket none fd =
      (.error "Socket protector not set but invoked!", [])) ∧
    (∀ p fd, protect_socket (some p) fd = (.ok (), [(p, fd)])) ∧
    (∀ st p fd, protect_socket (set_socket_protector st p) fd =
      (.ok (), [(p, fd)])) :=
  ⟨fun _ => rfl, fun _ _ => rfl, fun _ _ _ => rfl⟩

/-- C8: new_udp_socket with both a local address and an interface applies
the interface bind (the address only selects the family, so two addresses
of the same family yield the same bind); with only an address it binds
that address directly; with only an interface it binds via the binder;
with neither it leaves the socket unbound. -/
theorem c8_udp_bind_precedence :
    (∀ s i, new_udp_socket_bind (some s) (some i) =
      .viaIface (must_bind_socket_on_interface i
        (if s.is_ipv4 then .IPV4 else .IPV6))) ∧
    (∀ s, new_udp_socket_bind (some s) none = .direct s) ∧
    (∀ i, new_udp_socket_bind none (some i) =
      .viaIface (must_bind_socket_on_interface i .IPV4)) ∧
    new_udp_socket_bind none none = .unbound ∧
    (∀ s t i, s.is_ipv4 = t.is_ipv4 →
      new_udp_socket_bind (some s) (some i) =
        new_udp_socket_bind (some t) (some i)) := by
  refine ⟨fun s i => rfl, fun s => rfl, fun i => rfl, rfl, fun s t i h => ?_⟩
  simp only [new_udp_socket_bind, h]

/-- C8 witness: two IPv4 local addresses with the same interface produce
the same bind decision, and each arm of the precedence match evaluates as
stated on concrete inputs. -/
theorem c8_udp_bind_precedence_witness :
    new_udp_socket_bind (some (.V4 ⟨192, 168, 1, 2⟩ 1000))
        (some (.Name "eth0")) =
      new_udp_socket_bind (some (.V4 ⟨10, 0, 0, 1⟩ 2000))
        (some (.Name "eth0")) :=
  c8_udp_bind_precedence.2.2.2.2 _ _ _ rfl

/-- C9: the From conversion from an IP address always produces an address
identity with the matching component present (never both absent), and the
only operation consuming an address identity, the binder, rejects a
both-absent identity with AddrNotAvailable for either family instead of
binding. -/
theorem c9_ipaddr_identity_invariant :
    (∀ ip : IpAddr, ∃ v4 v6, interfaceFromIpAddr ip = .IpAddr v4 v6 ∧
      (v4.isSome || v6.isSome) = true) ∧
    (∀ family, must_bind_socket_on_interface (.IpAddr none none) family =
      .error .AddrNotAvailable) := by
  constructor
  · intro ip
    cases ip with
    | V4 a => exact ⟨some a, none, rfl, rfl⟩
    | V6 a => exact ⟨none, some a, rfl, rfl⟩
  · intro family
    cases family <;> rfl

/-- C10: for an interface whose address list has no usable IPv6 address,
the scan never stops early and records the last usable IPv4 address in
list order, each later usable IPv4 address overwriting the earlier one. -/
theorem c10_last_usable_v4_wins (iface : NetworkInterface)
    (h : ∀ ip, Addr.V6 ip ∈ iface.addr →
      (ip.is_global && !ip.is_unspecified) = false) :
    get_outbound_ip_from_interface iface = (lastUsableV4 iface.addr none, none) :=
  scanAddrs_no_usable_v6 iface.addr none h

/-- C10 witness: an interface with two usable IPv4 addresses and no IPv6
address records the second (later) one. -/
theorem c10_last_usable_v4_wins_witness :
    get_outbound_ip_from_interface
        ⟨"eth0", [.V4 ⟨10, 0, 0, 1⟩, .V4 ⟨192, 168, 1, 5⟩], 1⟩ =
      (some ⟨192, 168, 1, 5⟩, none) := by
  have h := c10_last_usable_v4_wins
    ⟨"eth0", [.V4 ⟨10, 0, 0, 1⟩, .V4 ⟨192, 168, 1, 5⟩], 1⟩
    (by intro ip hm; simp at hm)
  rw [h]
  decide

end Clash
